import Mathlib

/-!
Verification of the estate-assistant ingestion core: the normalization
utilities (`safe_str`, `safe_num`, `clean_document`, `create_metadata`)
and the streaming clean → validate → embed → batch → upsert pipeline
(`process_file_streaming`, `upsert_properties`).

Loosely-typed Python/JSON values are modelled by the inductive type `Val`.
Numbers are modelled as rationals: Python's int/float distinction, NaN,
infinities and overflow are outside the model.
-/

namespace Estate

/-- A loosely-typed runtime value: None, bool, number, string, list, dict. -/
inductive Val where
  | vnull : Val
  | vbool : Bool → Val
  | vnum : ℚ → Val
  | vstr : String → Val
  | vlist : List Val → Val
  | vdict : List (String × Val) → Val

/-- A raw record: a mapping from string keys to loosely-typed values
(one element of a source file's JSON array). -/
abbrev RawDoc := List (String × Val)

/-- First-match lookup in a string-keyed association list (a Python dict;
keys of an actual dict are unique, so first-match is exact). -/
def dget : List (String × Val) → String → Option Val
  | [], _ => none
  | (k, v) :: rest, key => if k = key then some v else dget rest key

/-- Python `doc.get(key)`: the value if present, else None. -/
def pyGet (doc : RawDoc) (k : String) : Val :=
  (dget doc k).getD Val.vnull

/-- Python `str.strip()`: drop leading and trailing whitespace
(structural on the character list, unlike `String.trim`). -/
def pyStrip (s : String) : String :=
  String.mk (((s.data.dropWhile Char.isWhitespace).reverse.dropWhile Char.isWhitespace).reverse)

/-- Digit-string to natural number; `none` unless nonempty and all digits. -/
def digitsToNat (cs : List Char) : Option ℕ :=
  if cs ≠ [] ∧ cs.all Char.isDigit then
    some (cs.foldl (fun a c => a * 10 + (c.toNat - 48)) 0)
  else none

/-- Unsigned decimal literal `intpart[.fracpart]` (either part may be empty,
not both) to a rational. Models the plain-decimal fragment of Python's
`float(str)` grammar (exponents, underscores, inf/nan are out of scope). -/
def parseDecCore (cs : List Char) : Option ℚ :=
  let ip := cs.takeWhile (· ≠ '.')
  let rest := cs.dropWhile (· ≠ '.')
  match rest with
  | [] => (digitsToNat ip).map (fun n => (n : ℚ))
  | _ :: fp =>
    if ip = [] ∧ fp = [] then none
    else if ip.all Char.isDigit ∧ fp.all Char.isDigit ∧ fp.all (· ≠ '.') then
      let ipv : ℚ := ((ip.foldl (fun a c => a * 10 + (c.toNat - 48)) 0 : ℕ) : ℚ)
      let fpv : ℚ := ((fp.foldl (fun a c => a * 10 + (c.toNat - 48)) 0 : ℕ) : ℚ)
      some (ipv + fpv / ((10 : ℚ) ^ fp.length))
    else none

/-- Python `float(str)` on the decimal fragment: strip whitespace,
optional sign, unsigned decimal literal. -/
def parseDec (s : String) : Option ℚ :=
  match (pyStrip s).data with
  | '-' :: rest => (parseDecCore rest).map (fun q => -q)
  | '+' :: rest => parseDecCore rest
  | cs => parseDecCore cs

/-- Python `float(val)`: numbers pass through, strings are parsed,
bools coerce to 0/1; None, lists and dicts raise TypeError (`none`). -/
def toFloat : Val → Option ℚ
  | Val.vnum q => some q
  | Val.vstr s => parseDec s
  | Val.vbool b => some (cond b 1 0)
  | _ => none

/-- `safe_str(val, fallback)` from utils.py: the trimmed value when it is
a string that is nonempty after trimming, else the fallback. -/
def safe_str (v : Val) (fallback : String) : String :=
  match v with
  | Val.vstr s => if pyStrip s = "" then fallback else pyStrip s
  | _ => fallback

/-- `safe_num(val, fallback, min_val, max_val)` from utils.py: numeric
coercion; on conversion failure, or when a given bound is strictly
violated, the fallback; otherwise the converted value. -/
def safe_num (v : Val) (fallback : ℚ) (min_val max_val : Option ℚ) : ℚ :=
  match toFloat v with
  | none => fallback
  | some n =>
    if (min_val.elim false fun m => decide (n < m)) || (max_val.elim false fun m => decide (m < n)) then
      fallback
    else n

/-- Python `str(float)` digit stream for the fractional part of `n/d`
(`0 ≤ n < d`), by long division, up to 17 digits. Exact for values whose
decimal expansion terminates within the fuel (which covers every value this
pipeline prints); Python's shortest-roundtrip repr is out of scope beyond
that. -/
def fracDigitsAux : Nat → Nat → Nat → List Char
  | 0, _, _ => []
  | _, 0, _ => []
  | fuel + 1, n, d =>
    let n10 := n * 10
    Char.ofNat (48 + n10 / d) :: fracDigitsAux fuel (n10 % d) d

/-- Python `str(float)` for a nonnegative value: integer part, a dot, and
either `0` (integral values print a trailing `.0`) or the fractional
digits. -/
def pyFloatReprNN (q : ℚ) : String :=
  let ipart := q.num.toNat / q.den
  let rem := q.num.toNat % q.den
  if rem = 0 then Nat.repr ipart ++ ".0"
  else Nat.repr ipart ++ "." ++ String.mk (fracDigitsAux 17 rem q.den)

/-- Python `str(float)`: sign plus nonnegative rendering. Scientific
notation for magnitudes at or above 1e16 is out of scope (never reached by
this pipeline's bounded fields and realistic ids). -/
def pyFloatRepr (q : ℚ) : String :=
  if q < 0 then "-" ++ pyFloatReprNN (-q) else pyFloatReprNN q

/-- The `AttributeError` raised when `.get` is called on a non-dict
(the only uncaught exception `clean_document` can raise in the model). -/
inductive PyError where
  | attributeError : PyError

/-- The nested `address` field of the raw record resolves to a usable dict:
either the key is absent (`doc.get("address", {})` supplies `{}`) or its value
is a dict. When the key holds any other value, every `address.get(...)` call
in `clean_document` raises AttributeError. -/
def addrOk (doc : RawDoc) : Bool :=
  match dget doc "address" with
  | none => true
  | some (Val.vdict _) => true
  | some _ => false

/-- The fields of `address = doc.get("address", {})`, defined when `addrOk`. -/
def addrFields (doc : RawDoc) : List (String × Val) :=
  match dget doc "address" with
  | some (Val.vdict fs) => fs
  | _ => []

/-- Python `address.get(key)` on the nested address dict. -/
def aGet (fs : List (String × Val)) (k : String) : Val :=
  (dget fs k).getD Val.vnull

/-- Python `a or b` for strings: `a` when nonempty (truthy), else `b`. -/
def pyOrStr (a b : String) : String :=
  if a = "" then b else a

/-- The nested `address` dict literal built by `clean_document`. -/
def cleanAddrFields (doc : RawDoc) : List (String × Val) :=
  let ad := addrFields doc
  [ ("streetAddress", Val.vstr (safe_str (aGet ad "streetAddress")
                                         (safe_str (pyGet doc "streetAddress") "Unknown"))),
    ("city", Val.vstr (safe_str (aGet ad "city")
                                (safe_str (pyGet doc "city") "Unknown"))),
    ("state", Val.vstr (safe_str (aGet ad "state")
                                 (safe_str (pyGet doc "state") "Unknown"))),
    ("zipcode", Val.vstr (safe_str (aGet ad "zipcode")
                                   (safe_str (pyGet doc "zipcode") "Unknown"))),
    ("neighborhood", aGet ad "neighborhood"),
    ("community", aGet ad "community"),
    ("subdivision", aGet ad "subdivision") ]

/-- The field list of the dict literal returned by `clean_document`
(utils.py), assuming the nested address accesses do not raise.
The `currentYear` parameter is `datetime.now().year` at call time.
`year_built > current_year + 1` adds in ℤ first, as Python does. -/
def cleanFields (currentYear : ℤ) (doc : RawDoc) : List (String × Val) :=
  let yb0 := safe_num (pyGet doc "yearBuilt") 0 none none
  let year_built : ℚ :=
    if yb0 < 1800 ∨ ((currentYear + 1 : ℤ) : ℚ) < yb0 then 0 else yb0
  let ad := addrFields doc
  [ ("zpid", Val.vnum (safe_num (pyGet doc "zpid") 0 none none)),
    ("city", Val.vstr (pyOrStr (safe_str (pyGet doc "city") "")
                               (safe_str (aGet ad "city") "Unknown"))),
    ("state", Val.vstr (pyOrStr (safe_str (pyGet doc "state") "")
                                (safe_str (aGet ad "state") "Unknown"))),
    ("homeStatus", Val.vstr (safe_str (pyGet doc "homeStatus") "Unknown")),
    ("address", Val.vdict (cleanAddrFields doc)),
    ("bedrooms", Val.vnum (safe_num (pyGet doc "bedrooms") 0 (some 0) (some 20))),
    ("bathrooms", Val.vnum (safe_num (pyGet doc "bathrooms") 0 (some 0) (some 20))),
    ("price", Val.vnum (safe_num (pyGet doc "price") 0 (some 10000) (some 10000000))),
    ("yearBuilt", Val.vnum year_built),
    ("latitude", Val.vnum (safe_num (pyGet doc "latitude") 0 none none)),
    ("longitude", Val.vnum (safe_num (pyGet doc "longitude") 0 none none)),
    ("livingArea", Val.vnum (safe_num (pyGet doc "livingArea") 0 (some 100) (some 20000))),
    ("homeType", Val.vstr (safe_str (pyGet doc "homeType") "Unknown")),
    ("listingDataSource", Val.vstr (safe_str (pyGet doc "listingDataSource") "Legacy")),
    ("description", Val.vstr (safe_str (pyGet doc "description") "Unknown")) ]

/-- `clean_document(doc)` from utils.py: raises AttributeError when the raw
`address` value is present and not a dict (some `address.get(...)` call is
reached unconditionally in every such run), otherwise returns the cleaned
dict. -/
def clean_document (currentYear : ℤ) (doc : RawDoc) : Except PyError Val :=
  if addrOk doc then Except.ok (Val.vdict (cleanFields currentYear doc))
  else Except.error PyError.attributeError

/-- Dict lookup on a cleaned value: `v[k]` / `v.get(k)`. `none` when the
key is absent or the value is not a dict. -/
def vget (v : Val) (k : String) : Option Val :=
  match v with
  | Val.vdict fs => dget fs k
  | _ => none

/-- Python `v[k]` on a cleaned dict. On the dicts `clean_document` returns,
every accessed key is present, so the KeyError case is unreachable and is
modelled as None. -/
def vidx (v : Val) (k : String) : Val :=
  (vget v k).getD Val.vnull

/-- Python `v.get(k, default)` on a dict value (non-dict receivers are
unreachable on cleaned records and fall back to the default). -/
def dictGetD (v : Val) (k : String) (d : Val) : Val :=
  match v with
  | Val.vdict fs => (dget fs k).getD d
  | _ => d

/-- JSON string escaping as `json.dumps` performs it for the characters
that occur here (quote, backslash, and common control characters;
`\uXXXX` escapes for other control/non-ASCII characters are out of scope). -/
def jsonEscapeChar (c : Char) : String :=
  if c = '"' then "\\\""
  else if c = '\\' then "\\\\"
  else if c = '\n' then "\\n"
  else if c = '\t' then "\\t"
  else if c = '\r' then "\\r"
  else String.mk [c]

/-- A JSON string literal for `s`. -/
def jsonStr (s : String) : String :=
  "\"" ++ String.join (s.data.map jsonEscapeChar) ++ "\""

mutual

/-- Python `json.dumps(v)` with default separators. Numbers render as
Python floats (the model conflates int and float). -/
def jsonDumps : Val → String
  | Val.vnull => "null"
  | Val.vbool b => cond b "true" "false"
  | Val.vnum q => pyFloatRepr q
  | Val.vstr s => jsonStr s
  | Val.vlist xs => "[" ++ jsonDumpsList xs ++ "]"
  | Val.vdict fs => "\x7b" ++ jsonDumpsFields fs ++ "\x7d"

/-- Comma-joined renderings of a JSON array's elements. -/
def jsonDumpsList : List Val → String
  | [] => ""
  | [x] => jsonDumps x
  | x :: y :: xs => jsonDumps x ++ ", " ++ jsonDumpsList (y :: xs)

/-- Comma-joined `"key": value` renderings of a JSON object's fields. -/
def jsonDumpsFields : List (String × Val) → String
  | [] => ""
  | [(k, v)] => jsonStr k ++ ": " ++ jsonDumps v
  | (k, v) :: y :: xs => jsonStr k ++ ": " ++ jsonDumps v ++ ", " ++ jsonDumpsFields (y :: xs)

end

/-- Python `str(v)` for the values interpolated by the pipeline's f-string:
cleaned fields are only strings and numbers; the remaining cases are
unreachable there and rendered via their JSON form. -/
def pyStr : Val → String
  | Val.vstr s => s
  | Val.vnum q => pyFloatRepr q
  | Val.vnull => "None"
  | Val.vbool b => cond b "True" "False"
  | v => jsonDumps v

/-- `create_metadata(clean_doc)` from utils.py: the flat metadata dict;
identical fields except `address`, which is JSON-encoded to a string. -/
def create_metadata (c : Val) : Val :=
  Val.vdict
    [ ("zpid", vidx c "zpid"),
      ("city", vidx c "city"),
      ("state", vidx c "state"),
      ("homeStatus", vidx c "homeStatus"),
      ("address", Val.vstr (jsonDumps (vidx c "address"))),
      ("bedrooms", vidx c "bedrooms"),
      ("bathrooms", vidx c "bathrooms"),
      ("price", vidx c "price"),
      ("yearBuilt", vidx c "yearBuilt"),
      ("latitude", vidx c "latitude"),
      ("longitude", vidx c "longitude"),
      ("livingArea", vidx c "livingArea"),
      ("homeType", vidx c "homeType"),
      ("listingDataSource", vidx c "listingDataSource"),
      ("description", vidx c "description") ]

/-- The f-string of `process_file_streaming` composing the embedding input
text from a cleaned record. -/
def composeText (c : Val) : String :=
  let ad := vidx c "address"
  "Property at " ++ pyStr (vidx ad "streetAddress") ++ ", "
    ++ pyStr (vidx ad "city") ++ ", " ++ pyStr (vidx ad "state")
    ++ " (" ++ pyStr (vidx ad "zipcode") ++ "). Price: $"
    ++ pyStr (vidx c "price") ++ ". Beds: " ++ pyStr (vidx c "bedrooms")
    ++ ", Baths: " ++ pyStr (vidx c "bathrooms")
    ++ ", Built in " ++ pyStr (vidx c "yearBuilt")
    ++ ". " ++ pyStr (vidx c "description")

/-- Python `v == "Unknown"`: true exactly when `v` is that string. -/
def isUnknown (v : Val) : Bool :=
  match v with
  | Val.vstr s => s = "Unknown"
  | _ => false

/-- Python `v == 0`: true for the number 0 and for False (bool is an int
subtype in Python); every other value compares unequal. -/
def eqZeroNum (v : Val) : Bool :=
  match v with
  | Val.vnum q => q = 0
  | Val.vbool b => !b
  | _ => false

/-- The skip condition of `process_file_streaming` (the validation gate):
any of city, state, address.streetAddress, address.zipcode equal to
"Unknown", or zpid equal to 0. -/
def rejectCond (c : Val) : Bool :=
  let addr := (vget c "address").getD (Val.vdict [])
  isUnknown (vidx c "city") || isUnknown (vidx c "state")
    || isUnknown (dictGetD addr "streetAddress" (Val.vstr "Unknown"))
    || isUnknown (dictGetD addr "zipcode" (Val.vstr "Unknown"))
    || eqZeroNum (vidx c "zpid")

/-- The batch capacity `BATCH_SIZE` from upsert_properties.py. -/
def BATCH_SIZE : Nat := 50

/-- A vector as built by `process_file_streaming`:
`{"id": str(zpid), "values": embedding, "metadata": create_metadata(...)}`. -/
structure PVec where
  id : String
  values : List ℚ
  metadata : Val

/-- The two external collaborators, modelled as oracles indexed by call
order. `embed i` is the outcome of the i-th embedding call: `some vs` for a
well-formed response with those values, `none` when the call raises or the
response is absent/malformed (`generate_embedding` then raises ValueError).
`upsertRaises i` tells whether the i-th `index.upsert` call raises; when it
returns, the response payload is only logged, so it is not modelled. -/
structure Env where
  embed : Nat → Option (List ℚ)
  upsertRaises : Nat → Bool

/-- The mutable state threaded through the run: the shared `vector_batch`
list, the number of embedding and upsert calls issued so far, and the trace
of batches passed to `upsert_batch` (in call order). -/
structure RunState where
  batch : List PVec
  embedCalls : Nat
  upsertCalls : Nat
  flushes : List (List PVec)

/-- The initial state: `vector_batch = []`, no calls made. -/
def initState : RunState :=
  { batch := [], embedCalls := 0, upsertCalls := 0, flushes := [] }

/-- The vector constructed for an accepted record from its cleaned dict and
its embedding. -/
def mkVector (c : Val) (emb : List ℚ) : PVec :=
  { id := pyStr (vidx c "zpid"), values := emb, metadata := create_metadata c }

/-- One iteration of the per-record loop of `process_file_streaming`,
including its try/except: a cleaning exception, a skip, or an embedding
failure leave the batch untouched; an accepted record is appended, and when
the batch reaches `BATCH_SIZE` the first `BATCH_SIZE` vectors are upserted —
if that upsert raises, the `del vector_batch[:BATCH_SIZE]` line is skipped
(the exception jumps to the handler), so the batch keeps the flushed
vectors. -/
def processDoc (env : Env) (currentYear : ℤ) (st : RunState) (doc : RawDoc) : RunState :=
  match clean_document currentYear doc with
  | Except.error _ => st
  | Except.ok c =>
    if rejectCond c then st
    else
      match env.embed st.embedCalls with
      | none => { st with embedCalls := st.embedCalls + 1 }
      | some emb =>
        let batch' := st.batch ++ [mkVector c emb]
        if BATCH_SIZE ≤ batch'.length then
          if env.upsertRaises st.upsertCalls then
            { batch := batch',
              embedCalls := st.embedCalls + 1,
              upsertCalls := st.upsertCalls + 1,
              flushes := st.flushes ++ [batch'.take BATCH_SIZE] }
          else
            { batch := batch'.drop BATCH_SIZE,
              embedCalls := st.embedCalls + 1,
              upsertCalls := st.upsertCalls + 1,
              flushes := st.flushes ++ [batch'.take BATCH_SIZE] }
        else
          { st with batch := batch', embedCalls := st.embedCalls + 1 }

/-- `process_file_streaming` on the records a file yields. A file whose
stream fails partway simply yields fewer records (the shared batch keeps
its per-record mutations); the file-level exception is caught by
`upsert_properties` and has no further effect on the state. -/
def processFile (env : Env) (currentYear : ℤ) (st : RunState) (docs : List RawDoc) : RunState :=
  docs.foldl (processDoc env currentYear) st

/-- The file loop of `upsert_properties` over the records each file yields. -/
def processFiles (env : Env) (currentYear : ℤ) (files : List (List RawDoc)) : RunState :=
  files.foldl (processFile env currentYear) initState

/-- The full `upsert_properties` run: the file loop, then the final
`if vector_batch: upsert_batch(vector_batch)` flush of the remainder.
The second component records whether the run was aborted: an exception from
the final upsert propagates out of `upsert_properties` to the top-level
handler, which exits the process with a nonzero code. -/
def upsert_properties (env : Env) (currentYear : ℤ) (files : List (List RawDoc)) :
    RunState × Bool :=
  let st := processFiles env currentYear files
  if st.batch.isEmpty then (st, false)
  else
    let st' := { st with flushes := st.flushes ++ [st.batch],
                         upsertCalls := st.upsertCalls + 1 }
    if env.upsertRaises st.upsertCalls then (st', true)
    else ({ st' with batch := [] }, false)

/-- The vectors the run accepts (cleaned, past the gate, embedding
succeeded), in acceptance order, starting from embedding-call index `ec`.
This is the reference order for the FIFO batching invariant. -/
def acceptedVectors (env : Env) (currentYear : ℤ) : Nat → List RawDoc → List PVec
  | _, [] => []
  | ec, doc :: rest =>
    match clean_document currentYear doc with
    | Except.error _ => acceptedVectors env currentYear ec rest
    | Except.ok c =>
      if rejectCond c then acceptedVectors env currentYear ec rest
      else
        match env.embed ec with
        | none => acceptedVectors env currentYear (ec + 1) rest
        | some emb => mkVector c emb :: acceptedVectors env currentYear (ec + 1) rest

/-- How many records of `docs` reach the embedding call (cleaned and past
the gate); the embedding-call counter advances by exactly this amount. -/
def embedAttempts (currentYear : ℤ) : List RawDoc → Nat
  | [] => 0
  | doc :: rest =>
    match clean_document currentYear doc with
    | Except.error _ => embedAttempts currentYear rest
    | Except.ok c =>
      if rejectCond c then embedAttempts currentYear rest
      else embedAttempts currentYear rest + 1

/-- A minimal raw record that cleans to an acceptable listing. -/
def doc0 : RawDoc :=
  [("zpid", Val.vnum 1), ("city", Val.vstr "A"), ("state", Val.vstr "B"),
   ("address", Val.vdict [("streetAddress", Val.vstr "S"), ("zipcode", Val.vstr "Z")])]

/-- A raw record whose city and state are resolvable only from the nested
address data (no top-level city/state keys). -/
def docNested : RawDoc :=
  [("zpid", Val.vnum 7),
   ("address", Val.vdict
     [("streetAddress", Val.vstr "1 Elm St"), ("city", Val.vstr " Springfield "),
      ("state", Val.vstr "IL"), ("zipcode", Val.vstr "62704")])]

/-- Like `doc0` but with `zpid = 0` and all other identity fields present. -/
def docZpid0 : RawDoc :=
  [("zpid", Val.vnum 0), ("city", Val.vstr "A"), ("state", Val.vstr "B"),
   ("address", Val.vdict [("streetAddress", Val.vstr "S"), ("zipcode", Val.vstr "Z")])]

/-- Like `doc0` but with the realistic integer zpid 12345. -/
def doc12345 : RawDoc :=
  [("zpid", Val.vnum ((12345 : ℕ) : ℚ)), ("city", Val.vstr "A"), ("state", Val.vstr "B"),
   ("address", Val.vdict [("streetAddress", Val.vstr "S"), ("zipcode", Val.vstr "Z")])]

/-- The vector produced for `doc0` with a unit embedding. -/
def vec0 : PVec := mkVector (Val.vdict (cleanFields 2025 doc0)) [1]

/-- A state whose pending batch holds 49 vectors (one short of capacity). -/
def st49 : RunState :=
  { batch := List.replicate 49 vec0, embedCalls := 49, upsertCalls := 0, flushes := [] }

/-- Oracles for a run where every external call succeeds. -/
def envOK : Env := { embed := fun _ => some [1], upsertRaises := fun _ => false }

/-- Oracles for a run where every upsert call raises. -/
def envUpsertFail : Env := { embed := fun _ => some [1], upsertRaises := fun _ => true }

/-- Oracles for a run where every embedding call fails. -/
def envEmbedFail : Env := { embed := fun _ => none, upsertRaises := fun _ => false }

section CleaningLemmas

variable (cy : ℤ) (doc : RawDoc)

theorem clean_document_ok (h : addrOk doc = true) :
    clean_document cy doc = Except.ok (Val.vdict (cleanFields cy doc)) := by
  simp [clean_document, h]

theorem cf_zpid :
    vget (Val.vdict (cleanFields cy doc)) "zpid"
      = some (Val.vnum (safe_num (pyGet doc "zpid") 0 none none)) := rfl

theorem cf_city :
    vget (Val.vdict (cleanFields cy doc)) "city"
      = some (Val.vstr (pyOrStr (safe_str (pyGet doc "city") "")
          (safe_str (aGet (addrFields doc) "city") "Unknown"))) := rfl

theorem cf_state :
    vget (Val.vdict (cleanFields cy doc)) "state"
      = some (Val.vstr (pyOrStr (safe_str (pyGet doc "state") "")
          (safe_str (aGet (addrFields doc) "state") "Unknown"))) := rfl

theorem cf_address :
    vget (Val.vdict (cleanFields cy doc)) "address"
      = some (Val.vdict (cleanAddrFields doc)) := rfl

theorem cfa_street :
    dget (cleanAddrFields doc) "streetAddress"
      = some (Val.vstr (safe_str (aGet (addrFields doc) "streetAddress")
          (safe_str (pyGet doc "streetAddress") "Unknown"))) := rfl

theorem cfa_city :
    dget (cleanAddrFields doc) "city"
      = some (Val.vstr (safe_str (aGet (addrFields doc) "city")
          (safe_str (pyGet doc "city") "Unknown"))) := rfl

theorem cfa_zipcode :
    dget (cleanAddrFields doc) "zipcode"
      = some (Val.vstr (safe_str (aGet (addrFields doc) "zipcode")
          (safe_str (pyGet doc "zipcode") "Unknown"))) := rfl

theorem cf_yearBuilt :
    vget (Val.vdict (cleanFields cy doc)) "yearBuilt"
      = some (Val.vnum
          (if safe_num (pyGet doc "yearBuilt") 0 none none < 1800
              ∨ ((cy + 1 : ℤ) : ℚ) < safe_num (pyGet doc "yearBuilt") 0 none none
           then 0 else safe_num (pyGet doc "yearBuilt") 0 none none)) := rfl

end CleaningLemmas

theorem clean_ok_inv {cy : ℤ} {doc : RawDoc} {c : Val}
    (hc : clean_document cy doc = Except.ok c) :
    c = Val.vdict (cleanFields cy doc) ∧ addrOk doc = true := by
  by_cases h : addrOk doc = true
  · rw [clean_document_ok cy doc h] at hc
    exact ⟨(Except.ok.injEq _ _).mp hc.symm, h⟩
  · simp [clean_document, h] at hc

theorem safe_num_unbounded {v : Val} {n : ℚ} (h : toFloat v = some n)
    (fb : ℚ) : safe_num v fb none none = n := by
  simp [safe_num, h]

theorem safe_str_neutral_of {v : Val} (h : ∀ s, v = Val.vstr s → pyStrip s = "")
    (fb : String) : safe_str v fb = fb := by
  cases v with
  | vstr s => simp [safe_str, h s rfl]
  | vnull => rfl
  | vbool b => rfl
  | vnum q => rfl
  | vlist xs => rfl
  | vdict fs => rfl

/-- Claim C1, counterexample: `clean_document` is not total on arbitrary raw
records — when the raw `address` key holds a non-dict value, the
`address.get(...)` calls raise AttributeError. -/
theorem clean_document_raises_on_nondict_address :
    clean_document 2025 [("address", Val.vstr "x")] = Except.error PyError.attributeError := rfl

/-- Claim C1 (amended): for every raw record whose `address` value, when
present, is itself a mapping, `clean_document` returns normally, and every
numeric/string field of the result is present with its declared type
(numbers for zpid/bedrooms/bathrooms/price/yearBuilt/latitude/longitude/
livingArea, strings for city/state/homeStatus/homeType/listingDataSource/
description and the four nested address identity fields). -/
theorem clean_document_total_typed (cy : ℤ) (doc : RawDoc) (h : addrOk doc = true) :
    ∃ c, clean_document cy doc = Except.ok c
      ∧ (∃ q, vget c "zpid" = some (Val.vnum q))
      ∧ (∃ s, vget c "city" = some (Val.vstr s))
      ∧ (∃ s, vget c "state" = some (Val.vstr s))
      ∧ (∃ s, vget c "homeStatus" = some (Val.vstr s))
      ∧ (∃ q, vget c "bedrooms" = some (Val.vnum q))
      ∧ (∃ q, vget c "bathrooms" = some (Val.vnum q))
      ∧ (∃ q, vget c "price" = some (Val.vnum q))
      ∧ (∃ q, vget c "yearBuilt" = some (Val.vnum q))
      ∧ (∃ q, vget c "latitude" = some (Val.vnum q))
      ∧ (∃ q, vget c "longitude" = some (Val.vnum q))
      ∧ (∃ q, vget c "livingArea" = some (Val.vnum q))
      ∧ (∃ s, vget c "homeType" = some (Val.vstr s))
      ∧ (∃ s, vget c "listingDataSource" = some (Val.vstr s))
      ∧ (∃ s, vget c "description" = some (Val.vstr s))
      ∧ (∃ ad, vget c "address" = some (Val.vdict ad)
          ∧ (∃ s, dget ad "streetAddress" = some (Val.vstr s))
          ∧ (∃ s, dget ad "city" = some (Val.vstr s))
          ∧ (∃ s, dget ad "state" = some (Val.vstr s))
          ∧ (∃ s, dget ad "zipcode" = some (Val.vstr s))) :=
  ⟨Val.vdict (cleanFields cy doc), clean_document_ok cy doc h,
    ⟨_, rfl⟩, ⟨_, rfl⟩, ⟨_, rfl⟩, ⟨_, rfl⟩, ⟨_, rfl⟩, ⟨_, rfl⟩, ⟨_, rfl⟩,
    ⟨_, rfl⟩, ⟨_, rfl⟩, ⟨_, rfl⟩, ⟨_, rfl⟩, ⟨_, rfl⟩, ⟨_, rfl⟩, ⟨_, rfl⟩,
    ⟨_, rfl, ⟨_, rfl⟩, ⟨_, rfl⟩, ⟨_, rfl⟩, ⟨_, rfl⟩⟩⟩

/-- Witness for claim C1's amended theorem at a concrete record. -/
theorem clean_document_total_typed_witness :
    addrOk doc0 = true ∧
    ∃ c, clean_document 2025 doc0 = Except.ok c
      ∧ (∃ q, vget c "zpid" = some (Val.vnum q))
      ∧ (∃ s, vget c "city" = some (Val.vstr s))
      ∧ (∃ s, vget c "state" = some (Val.vstr s))
      ∧ (∃ s, vget c "homeStatus" = some (Val.vstr s))
      ∧ (∃ q, vget c "bedrooms" = some (Val.vnum q))
      ∧ (∃ q, vget c "bathrooms" = some (Val.vnum q))
      ∧ (∃ q, vget c "price" = some (Val.vnum q))
      ∧ (∃ q, vget c "yearBuilt" = some (Val.vnum q))
      ∧ (∃ q, vget c "latitude" = some (Val.vnum q))
      ∧ (∃ q, vget c "longitude" = some (Val.vnum q))
      ∧ (∃ q, vget c "livingArea" = some (Val.vnum q))
      ∧ (∃ s, vget c "homeType" = some (Val.vstr s))
      ∧ (∃ s, vget c "listingDataSource" = some (Val.vstr s))
      ∧ (∃ s, vget c "description" = some (Val.vstr s))
      ∧ (∃ ad, vget c "address" = some (Val.vdict ad)
          ∧ (∃ s, dget ad "streetAddress" = some (Val.vstr s))
          ∧ (∃ s, dget ad "city" = some (Val.vstr s))
          ∧ (∃ s, dget ad "state" = some (Val.vstr s))
          ∧ (∃ s, dget ad "zipcode" = some (Val.vstr s))) :=
  ⟨rfl, clean_document_total_typed 2025 doc0 rfl⟩

/-- Claim C4: `safe_num` with both bounds returns the fallback on conversion
failure or when the converted value lies outside the closed interval, and
returns the converted value inside it; the price boundary 10000 is accepted
while 9999 falls back to 0 (rejection, not clamping). -/
theorem safe_num_bounds_spec :
    (∀ (v : Val) (fb lo hi : ℚ),
        (toFloat v = none → safe_num v fb (some lo) (some hi) = fb)
      ∧ (∀ n, toFloat v = some n →
          ((n < lo ∨ hi < n) → safe_num v fb (some lo) (some hi) = fb)
        ∧ (lo ≤ n → n ≤ hi → safe_num v fb (some lo) (some hi) = n)))
    ∧ safe_num (Val.vnum 10000) 0 (some 10000) (some 10000000) = 10000
    ∧ safe_num (Val.vnum 9999) 0 (some 10000) (some 10000000) = 0 := by
  refine ⟨?_, by decide, by decide⟩
  intro v fb lo hi
  refine ⟨fun h => by simp [safe_num, h], fun n h => ⟨fun hout => ?_, fun h1 h2 => ?_⟩⟩
  · rcases hout with h' | h' <;> simp [safe_num, h, h']
  · simp [safe_num, h, not_lt.mpr h1, not_lt.mpr h2]

/-- Witness for claim C4's theorem: a non-numeric input falls back, an
out-of-range input falls back, an in-range input is returned. -/
theorem safe_num_bounds_spec_witness :
    safe_num (Val.vstr "abc") 7 (some 0) (some 20) = 7
    ∧ safe_num (Val.vnum 25) 0 (some 0) (some 20) = 0
    ∧ safe_num (Val.vnum 12) 0 (some 0) (some 20) = 12 :=
  ⟨(safe_num_bounds_spec.1 (Val.vstr "abc") 7 0 20).1 (by decide),
   ((safe_num_bounds_spec.1 (Val.vnum 25) 0 0 20).2 25 (by decide)).1 (by decide),
   ((safe_num_bounds_spec.1 (Val.vnum 12) 0 0 20).2 12 (by decide)).2 (by decide) (by decide)⟩

/-- Claim C7: the cleaned yearBuilt equals the coerced input value when that
value lies in [1800, currentYear + 1] (the upper bound taken from the
call-time year parameter), and equals 0 otherwise (including conversion
failure); 1800 is accepted while 1799 and currentYear + 2 fall back to 0. -/
theorem clean_yearBuilt_spec :
    (∀ (cy : ℤ) (doc : RawDoc) (c : Val), clean_document cy doc = Except.ok c →
        (∀ q, toFloat (pyGet doc "yearBuilt") = some q →
            ((1800 ≤ q ∧ q ≤ ((cy + 1 : ℤ) : ℚ)) →
              vget c "yearBuilt" = some (Val.vnum q))
          ∧ ((q < 1800 ∨ ((cy + 1 : ℤ) : ℚ) < q) →
              vget c "yearBuilt" = some (Val.vnum 0)))
      ∧ (toFloat (pyGet doc "yearBuilt") = none →
          vget c "yearBuilt" = some (Val.vnum 0)))
    ∧ (∀ cy : ℤ, 1799 ≤ cy →
        (∃ c, clean_document cy [("yearBuilt", Val.vnum 1800)] = Except.ok c
           ∧ vget c "yearBuilt" = some (Val.vnum 1800))
      ∧ (∃ c, clean_document cy [("yearBuilt", Val.vnum 1799)] = Except.ok c
           ∧ vget c "yearBuilt" = some (Val.vnum 0))
      ∧ (∃ c, clean_document cy [("yearBuilt", Val.vnum ((cy + 2 : ℤ) : ℚ))] = Except.ok c
           ∧ vget c "yearBuilt" = some (Val.vnum 0))) := by
  constructor
  · intro cy doc c hc
    obtain ⟨hcv, _⟩ := clean_ok_inv hc
    subst hcv
    constructor
    · intro q hq
      rw [cf_yearBuilt, safe_num_unbounded hq]
      constructor
      · rintro ⟨h1, h2⟩
        rw [if_neg]
        push_neg
        exact ⟨h1, h2⟩
      · intro hout
        rw [if_pos hout]
    · intro hq
      rw [cf_yearBuilt]
      have : safe_num (pyGet doc "yearBuilt") 0 none none = 0 := by simp [safe_num, hq]
      rw [this, if_pos]
      left
      norm_num
  · intro cy hcy
    have hub : (1800 : ℚ) ≤ ((cy + 1 : ℤ) : ℚ) := by
      have : (1800 : ℤ) ≤ cy + 1 := by omega
      exact_mod_cast this
    refine ⟨⟨_, rfl, ?_⟩, ⟨_, rfl, ?_⟩, ⟨_, rfl, ?_⟩⟩
    · rw [cf_yearBuilt]
      have h1800 : safe_num (pyGet [("yearBuilt", Val.vnum 1800)] "yearBuilt") 0 none none
          = 1800 := rfl
      rw [h1800, if_neg]
      push_neg
      exact ⟨le_refl _, hub⟩
    · rw [cf_yearBuilt]
      have h1799 : safe_num (pyGet [("yearBuilt", Val.vnum 1799)] "yearBuilt") 0 none none
          = 1799 := rfl
      rw [h1799, if_pos]
      left
      norm_num
    · rw [cf_yearBuilt]
      have h2 : safe_num (pyGet [("yearBuilt", Val.vnum ((cy + 2 : ℤ) : ℚ))] "yearBuilt")
          0 none none = ((cy + 2 : ℤ) : ℚ) := rfl
      rw [h2, if_pos]
      right
      exact_mod_cast (by omega : cy + 1 < cy + 2)

/-- Witness for claim C7's theorem: at currentYear 2025, a record with
yearBuilt 2000 keeps it, 1800 is kept, 1799 and 2027 fall back to 0. -/
theorem clean_yearBuilt_spec_witness :
    (∃ c, clean_document 2025 [("yearBuilt", Val.vnum 2000)] = Except.ok c
       ∧ vget c "yearBuilt" = some (Val.vnum 2000))
    ∧ (∃ c, clean_document 2025 [("yearBuilt", Val.vnum 1800)] = Except.ok c
       ∧ vget c "yearBuilt" = some (Val.vnum 1800))
    ∧ (∃ c, clean_document 2025 [("yearBuilt", Val.vnum 1799)] = Except.ok c
       ∧ vget c "yearBuilt" = some (Val.vnum 0))
    ∧ (∃ c, clean_document 2025 [("yearBuilt", Val.vnum ((2027 : ℤ) : ℚ))] = Except.ok c
       ∧ vget c "yearBuilt" = some (Val.vnum 0)) :=
  ⟨⟨_, rfl, ((clean_yearBuilt_spec.1 2025 [("yearBuilt", Val.vnum 2000)] _ rfl).1
      2000 rfl).1 (by constructor <;> decide)⟩,
   (clean_yearBuilt_spec.2 2025 (by decide)).1,
   (clean_yearBuilt_spec.2 2025 (by decide)).2.1,
   (clean_yearBuilt_spec.2 2025 (by decide)).2.2⟩

/-- Claim C8: the cleaned top-level city (resp. state) is the trimmed
top-level value when that is a string nonempty after trimming, else the
trimmed nested address value when that is such a string, else "Unknown". -/
theorem clean_city_state_spec (cy : ℤ) (doc : RawDoc) (c : Val)
    (hc : clean_document cy doc = Except.ok c) :
    ((∀ s, pyGet doc "city" = Val.vstr s → pyStrip s ≠ "" →
        vget c "city" = some (Val.vstr (pyStrip s)))
    ∧ ((∀ s, pyGet doc "city" = Val.vstr s → pyStrip s = "") →
        (∀ s, aGet (addrFields doc) "city" = Val.vstr s → pyStrip s ≠ "" →
          vget c "city" = some (Val.vstr (pyStrip s))))
    ∧ ((∀ s, pyGet doc "city" = Val.vstr s → pyStrip s = "") →
        (∀ s, aGet (addrFields doc) "city" = Val.vstr s → pyStrip s = "") →
        vget c "city" = some (Val.vstr "Unknown")))
    ∧ ((∀ s, pyGet doc "state" = Val.vstr s → pyStrip s ≠ "" →
        vget c "state" = some (Val.vstr (pyStrip s)))
    ∧ ((∀ s, pyGet doc "state" = Val.vstr s → pyStrip s = "") →
        (∀ s, aGet (addrFields doc) "state" = Val.vstr s → pyStrip s ≠ "" →
          vget c "state" = some (Val.vstr (pyStrip s))))
    ∧ ((∀ s, pyGet doc "state" = Val.vstr s → pyStrip s = "") →
        (∀ s, aGet (addrFields doc) "state" = Val.vstr s → pyStrip s = "") →
        vget c "state" = some (Val.vstr "Unknown"))) := by
  obtain ⟨hcv, _⟩ := clean_ok_inv hc
  subst hcv
  constructor
  · refine ⟨fun s hs hne => ?_, fun htop s hs hne => ?_, fun htop hnest => ?_⟩
    · rw [cf_city, hs]
      simp [safe_str, pyOrStr, hne]
    · rw [cf_city, safe_str_neutral_of htop, hs]
      simp [safe_str, pyOrStr, hne]
    · rw [cf_city, safe_str_neutral_of htop, safe_str_neutral_of hnest]
      rfl
  · refine ⟨fun s hs hne => ?_, fun htop s hs hne => ?_, fun htop hnest => ?_⟩
    · rw [cf_state, hs]
      simp [safe_str, pyOrStr, hne]
    · rw [cf_state, safe_str_neutral_of htop, hs]
      simp [safe_str, pyOrStr, hne]
    · rw [cf_state, safe_str_neutral_of htop, safe_str_neutral_of hnest]
      rfl

/-- Witness for claim C8's theorem: a record whose city is present only in
the nested address data is cleaned with the trimmed nested value, not
"Unknown". -/
theorem clean_city_state_spec_witness :
    ∃ c, clean_document 2025 docNested = Except.ok c
      ∧ vget c "city" = some (Val.vstr "Springfield") :=
  ⟨Val.vdict (cleanFields 2025 docNested), rfl,
    (clean_city_state_spec 2025 docNested _ rfl).1.2.1
      (fun s h => Val.noConfusion h) " Springfield " rfl (by decide)⟩

/-- Claim C5: the validation gate rejects a cleaned record exactly when one
of city, state, address.streetAddress, address.zipcode is the literal
"Unknown" or zpid is 0 (so zpid = 0 is always rejected), and a rejected
record has no further effect: no embedding call is made, nothing is
appended, nothing is flushed — the state is returned unchanged. -/
theorem validation_gate_spec (env : Env) (cy : ℤ) (st : RunState) (doc : RawDoc) (c : Val)
    (hc : clean_document cy doc = Except.ok c) :
    (rejectCond c = true ↔
      (vget c "city" = some (Val.vstr "Unknown")
      ∨ vget c "state" = some (Val.vstr "Unknown")
      ∨ (∃ ad, vget c "address" = some (Val.vdict ad)
            ∧ dget ad "streetAddress" = some (Val.vstr "Unknown"))
      ∨ (∃ ad, vget c "address" = some (Val.vdict ad)
            ∧ dget ad "zipcode" = some (Val.vstr "Unknown"))
      ∨ vget c "zpid" = some (Val.vnum 0)))
    ∧ (rejectCond c = true → processDoc env cy st doc = st) := by
  obtain ⟨hcv, _⟩ := clean_ok_inv hc
  subst hcv
  constructor
  · rw [cf_city, cf_state, cf_zpid, cf_address,
      show rejectCond (Val.vdict (cleanFields cy doc))
        = (decide (pyOrStr (safe_str (pyGet doc "city") "")
              (safe_str (aGet (addrFields doc) "city") "Unknown") = "Unknown")
          || decide (pyOrStr (safe_str (pyGet doc "state") "")
              (safe_str (aGet (addrFields doc) "state") "Unknown") = "Unknown")
          || decide (safe_str (aGet (addrFields doc) "streetAddress")
              (safe_str (pyGet doc "streetAddress") "Unknown") = "Unknown")
          || decide (safe_str (aGet (addrFields doc) "zipcode")
              (safe_str (pyGet doc "zipcode") "Unknown") = "Unknown")
          || decide (safe_num (pyGet doc "zpid") 0 none none = 0)) from rfl]
    simp only [Bool.or_eq_true, decide_eq_true_eq, Option.some.injEq, Val.vstr.injEq,
      Val.vdict.injEq, Val.vnum.injEq, exists_eq_left', cfa_street, cfa_zipcode]
    tauto
  · intro hr
    simp [processDoc, hc, hr]

/-- Witness for claim C5's theorem: a record with zpid 0 but every other
identity field present is rejected, and processing it leaves the state
unchanged. -/
theorem validation_gate_spec_witness :
    rejectCond (Val.vdict (cleanFields 2025 docZpid0)) = true
    ∧ processDoc envOK 2025 initState docZpid0 = initState :=
  have h := validation_gate_spec envOK 2025 initState docZpid0
    (Val.vdict (cleanFields 2025 docZpid0)) rfl
  have hrej : rejectCond (Val.vdict (cleanFields 2025 docZpid0)) = true :=
    h.1.mpr (Or.inr (Or.inr (Or.inr (Or.inr rfl))))
  ⟨hrej, h.2 hrej⟩

/-- Claim C6: an embedding failure for a record is caught as a per-record
failure: the pending batch is unchanged, no vector is appended, no flush
happens (only the embedding-call counter advances), and the following
records are processed exactly as they would be from that state. -/
theorem embedding_failure_isolated (env : Env) (cy : ℤ) (st : RunState) (doc : RawDoc)
    (rest : List RawDoc) (c : Val)
    (hc : clean_document cy doc = Except.ok c) (hr : rejectCond c = false)
    (he : env.embed st.embedCalls = none) :
    processDoc env cy st doc = { st with embedCalls := st.embedCalls + 1 }
    ∧ processFile env cy st (doc :: rest)
        = processFile env cy { st with embedCalls := st.embedCalls + 1 } rest := by
  have h1 : processDoc env cy st doc = { st with embedCalls := st.embedCalls + 1 } := by
    simp [processDoc, hc, hr, he]
  exact ⟨h1, by simp [processFile, h1]⟩

/-- Witness for claim C6's theorem: with a failing embedding service, a good
record only advances the call counter, and the next record is processed
from that state. -/
theorem embedding_failure_isolated_witness :
    processDoc envEmbedFail 2025 initState doc0 = { initState with embedCalls := 1 }
    ∧ processFile envEmbedFail 2025 initState [doc0, doc0]
        = processFile envEmbedFail 2025 { initState with embedCalls := 1 } [doc0] :=
  embedding_failure_isolated envEmbedFail 2025 initState doc0 [doc0]
    (Val.vdict (cleanFields 2025 doc0)) rfl rfl rfl

set_option maxRecDepth 1000000 in
/-- Claim C2, counterexample: a store failure is not always "logged only
with the run never aborted" — when the final remainder flush raises, the
exception propagates out of `upsert_properties` and the run aborts
(nonzero exit); and a failed mid-run batch is re-sent: with 51 accepted
records and every upsert raising, the same 50-vector batch is passed to
`upsert_batch` twice. -/
theorem upsert_failure_aborts_and_resends :
    (upsert_properties envUpsertFail 2025 [[doc0]]).2 = true
    ∧ ((processFile envUpsertFail 2025 initState (List.replicate 51 doc0)).flushes.map
        List.length = [50, 50])
    ∧ (processFile envUpsertFail 2025 initState (List.replicate 51 doc0)).flushes.getLast?
        = ((processFile envUpsertFail 2025 initState (List.replicate 51 doc0)).flushes.head?) := by
  refine ⟨rfl, ?_, rfl⟩
  decide

/-- Claim C2 (amended): when a mid-run upsert call raises, the per-record
handler catches and logs it and the run continues with the next record, but
`del vector_batch[:BATCH_SIZE]` is skipped, so the failed batch stays in
the pending queue (to be re-sent by the next flush attempt) — the store
call and its failure are recorded, nothing is rolled back. -/
theorem upsert_failure_batch_retained (env : Env) (cy : ℤ) (st : RunState)
    (doc : RawDoc) (rest : List RawDoc) (c : Val) (emb : List ℚ)
    (hc : clean_document cy doc = Except.ok c) (hr : rejectCond c = false)
    (he : env.embed st.embedCalls = some emb)
    (hlen : BATCH_SIZE ≤ (st.batch ++ [mkVector c emb]).length)
    (hup : env.upsertRaises st.upsertCalls = true) :
    processDoc env cy st doc =
      { batch := st.batch ++ [mkVector c emb],
        embedCalls := st.embedCalls + 1,
        upsertCalls := st.upsertCalls + 1,
        flushes := st.flushes ++ [(st.batch ++ [mkVector c emb]).take BATCH_SIZE] }
    ∧ processFile env cy st (doc :: rest)
        = processFile env cy
            { batch := st.batch ++ [mkVector c emb],
              embedCalls := st.embedCalls + 1,
              upsertCalls := st.upsertCalls + 1,
              flushes := st.flushes ++ [(st.batch ++ [mkVector c emb]).take BATCH_SIZE] }
            rest := by
  have h1 : processDoc env cy st doc =
      { batch := st.batch ++ [mkVector c emb],
        embedCalls := st.embedCalls + 1,
        upsertCalls := st.upsertCalls + 1,
        flushes := st.flushes ++ [(st.batch ++ [mkVector c emb]).take BATCH_SIZE] } := by
    have hlen' : BATCH_SIZE ≤ st.batch.length + 1 := by simpa using hlen
    simp [processDoc, hc, hr, he, hlen', hup]
  exact ⟨h1, by simp [processFile, h1]⟩

/-- Witness for claim C2's amended theorem: from a 49-vector pending batch,
a 50th accepted record triggers a flush attempt that raises; the state
keeps all 50 vectors pending and records the attempted batch. -/
theorem upsert_failure_batch_retained_witness :
    processDoc envUpsertFail 2025 st49 doc0 =
      { batch := st49.batch ++ [mkVector (Val.vdict (cleanFields 2025 doc0)) [1]],
        embedCalls := st49.embedCalls + 1,
        upsertCalls := st49.upsertCalls + 1,
        flushes := st49.flushes
          ++ [(st49.batch ++ [mkVector (Val.vdict (cleanFields 2025 doc0)) [1]]).take
                BATCH_SIZE] } :=
  (upsert_failure_batch_retained envUpsertFail 2025 st49 doc0 []
    (Val.vdict (cleanFields 2025 doc0)) [1] rfl rfl rfl (by decide) rfl).1

theorem processFile_append (env : Env) (cy : ℤ) (st : RunState)
    (xs ys : List RawDoc) :
    processFile env cy st (xs ++ ys) = processFile env cy (processFile env cy st xs) ys := by
  simp [processFile, List.foldl_append]

theorem processFiles_eq_flatten (env : Env) (cy : ℤ) (files : List (List RawDoc)) :
    processFiles env cy files = processFile env cy initState files.flatten := by
  suffices h : ∀ (fs : List (List RawDoc)) (st : RunState),
      fs.foldl (processFile env cy) st = processFile env cy st fs.flatten by
    exact h files initState
  intro fs
  induction fs with
  | nil => intro st; rfl
  | cons f fs ih =>
    intro st
    rw [List.foldl_cons, ih, List.flatten_cons, processFile_append]

theorem processFile_success_inv (env : Env) (cy : ℤ)
    (hup : ∀ i, env.upsertRaises i = false) :
    ∀ (docs : List RawDoc) (st : RunState), st.batch.length < BATCH_SIZE →
      (processFile env cy st docs).batch.length < BATCH_SIZE
      ∧ (processFile env cy st docs).embedCalls = st.embedCalls + embedAttempts cy docs
      ∧ (processFile env cy st docs).flushes.flatten ++ (processFile env cy st docs).batch
          = st.flushes.flatten ++ st.batch ++ acceptedVectors env cy st.embedCalls docs
      ∧ ∃ F, (processFile env cy st docs).flushes = st.flushes ++ F
          ∧ ∀ b ∈ F, b.length = BATCH_SIZE := by
  intro docs
  induction docs with
  | nil =>
    intro st h
    exact ⟨h, by simp [processFile, embedAttempts],
      by simp [processFile, acceptedVectors], [], by simp [processFile], by simp⟩
  | cons d rest ih =>
    intro st h
    have hPF : processFile env cy st (d :: rest)
        = processFile env cy (processDoc env cy st d) rest := by
      simp [processFile]
    cases hcd : clean_document cy d with
    | error e =>
      have hpd : processDoc env cy st d = st := by simp [processDoc, hcd]
      have hAcc : acceptedVectors env cy st.embedCalls (d :: rest)
          = acceptedVectors env cy st.embedCalls rest := by simp [acceptedVectors, hcd]
      have hEA : embedAttempts cy (d :: rest) = embedAttempts cy rest := by
        simp [embedAttempts, hcd]
      rw [hPF, hpd, hAcc, hEA]
      exact ih st h
    | ok c =>
      cases hrj : rejectCond c with
      | true =>
        have hpd : processDoc env cy st d = st := by simp [processDoc, hcd, hrj]
        have hAcc : acceptedVectors env cy st.embedCalls (d :: rest)
            = acceptedVectors env cy st.embedCalls rest := by
          simp [acceptedVectors, hcd, hrj]
        have hEA : embedAttempts cy (d :: rest) = embedAttempts cy rest := by
          simp [embedAttempts, hcd, hrj]
        rw [hPF, hpd, hAcc, hEA]
        exact ih st h
      | false =>
        have hEA : embedAttempts cy (d :: rest) = embedAttempts cy rest + 1 := by
          simp [embedAttempts, hcd, hrj]
        cases hem : env.embed st.embedCalls with
        | none =>
          have hpd : processDoc env cy st d = { st with embedCalls := st.embedCalls + 1 } := by
            simp [processDoc, hcd, hrj, hem]
          have hAcc : acceptedVectors env cy st.embedCalls (d :: rest)
              = acceptedVectors env cy (st.embedCalls + 1) rest := by
            simp [acceptedVectors, hcd, hrj, hem]
          rw [hPF, hpd, hAcc, hEA]
          obtain ⟨h1, h2, h3, F, hF, hFlen⟩ := ih { st with embedCalls := st.embedCalls + 1 } h
          refine ⟨h1, ?_, by rw [h3], F, hF, hFlen⟩
          rw [h2]
          show st.embedCalls + 1 + embedAttempts cy rest
            = st.embedCalls + (embedAttempts cy rest + 1)
          omega
        | some emb =>
          have hAcc : acceptedVectors env cy st.embedCalls (d :: rest)
              = mkVector c emb :: acceptedVectors env cy (st.embedCalls + 1) rest := by
            simp [acceptedVectors, hcd, hrj, hem]
          by_cases hfull : BATCH_SIZE ≤ (st.batch ++ [mkVector c emb]).length
          · have hlen : (st.batch ++ [mkVector c emb]).length = BATCH_SIZE := by
              simp only [List.length_append, List.length_cons, List.length_nil] at hfull ⊢
              omega
            have htake : (st.batch ++ [mkVector c emb]).take BATCH_SIZE
                = st.batch ++ [mkVector c emb] := by
              rw [← hlen]; exact List.take_length _
            have hdrop : (st.batch ++ [mkVector c emb]).drop BATCH_SIZE = [] := by
              rw [← hlen]; exact List.drop_length _
            have hfull' : BATCH_SIZE ≤ st.batch.length + 1 := by simpa using hfull
            have hpd : processDoc env cy st d =
                { batch := [], embedCalls := st.embedCalls + 1,
                  upsertCalls := st.upsertCalls + 1,
                  flushes := st.flushes ++ [st.batch ++ [mkVector c emb]] } := by
              simp [processDoc, hcd, hrj, hem, hfull', hup st.upsertCalls, htake, hdrop]
            rw [hPF, hpd, hAcc, hEA]
            obtain ⟨h1, h2, h3, F, hF, hFlen⟩ := ih
              { batch := [], embedCalls := st.embedCalls + 1,
                upsertCalls := st.upsertCalls + 1,
                flushes := st.flushes ++ [st.batch ++ [mkVector c emb]] }
              (by simp [BATCH_SIZE])
            refine ⟨h1, ?_, ?_, (st.batch ++ [mkVector c emb]) :: F, ?_, ?_⟩
            · rw [h2]
              show st.embedCalls + 1 + embedAttempts cy rest
                = st.embedCalls + (embedAttempts cy rest + 1)
              omega
            · rw [h3]
              simp [List.flatten_append]
            · rw [hF]
              simp
            · intro b hb
              rcases List.mem_cons.mp hb with hb | hb
              · rw [hb, hlen]
              · exact hFlen b hb
          · have hlt : (st.batch ++ [mkVector c emb]).length < BATCH_SIZE := by omega
            have hnot : ¬ BATCH_SIZE ≤ st.batch.length + 1 := by simpa using hfull
            have hpd : processDoc env cy st d =
                { st with batch := st.batch ++ [mkVector c emb],
                          embedCalls := st.embedCalls + 1 } := by
              simp [processDoc, hcd, hrj, hem, hnot]
            rw [hPF, hpd, hAcc, hEA]
            obtain ⟨h1, h2, h3, F, hF, hFlen⟩ := ih
              { st with batch := st.batch ++ [mkVector c emb],
                        embedCalls := st.embedCalls + 1 } hlt
            refine ⟨h1, ?_, ?_, F, hF, hFlen⟩
            · rw [h2]
              show st.embedCalls + 1 + embedAttempts cy rest
                = st.embedCalls + (embedAttempts cy rest + 1)
              omega
            · rw [h3]
              simp

theorem flatten_nil_of_uniform {n : ℕ} (hn : 0 < n) :
    ∀ (L : List (List PVec)), (∀ b ∈ L, b.length = n) → L.flatten = [] → L = [] := by
  intro L hL hfl
  cases L with
  | nil => rfl
  | cons b L' =>
    rw [List.flatten_cons, List.append_eq_nil] at hfl
    have hb := hL b (List.mem_cons_self b L')
    rw [hfl.1] at hb
    simp at hb
    omega

set_option maxRecDepth 1000000 in
/-- Claim C3, counterexample: with every upsert call raising, the pending
batch is never drained, so the final flush carries 60 vectors — outside the
claimed range of 0 to 49. -/
theorem final_flush_exceeds_limit :
    ((upsert_properties envUpsertFail 2025 [List.replicate 60 doc0]).1.flushes.map
      List.length) = [50, 50, 50, 50, 50, 50, 50, 50, 50, 50, 50, 60] := by
  decide

/-- Claim C3 (amended): in a run where every upsert call returns, every
flushed batch except possibly the final one has exactly BATCH_SIZE (50)
elements, the flushed batches concatenate to exactly the accepted vectors
in FIFO acceptance order, every flush is nonempty and at most 50 (so the
end-of-run remainder flush has 1 to 49 elements and is skipped when the
remainder is empty), with 0 accepted records no flush call is made, and the
run is not aborted. When upsert calls raise, the failed vectors stay
pending and the final flush can exceed 49. -/
theorem batching_invariant_success (env : Env) (cy : ℤ) (files : List (List RawDoc))
    (hup : ∀ i, env.upsertRaises i = false) :
    (∀ b ∈ (upsert_properties env cy files).1.flushes.dropLast, b.length = BATCH_SIZE)
    ∧ (∀ b ∈ (upsert_properties env cy files).1.flushes,
        1 ≤ b.length ∧ b.length ≤ BATCH_SIZE)
    ∧ (upsert_properties env cy files).1.flushes.flatten
        = acceptedVectors env cy 0 files.flatten
    ∧ (acceptedVectors env cy 0 files.flatten = [] →
        (upsert_properties env cy files).1.flushes = [])
    ∧ (upsert_properties env cy files).2 = false := by
  obtain ⟨hb, hec, hj, F, hF, hFlen⟩ :=
    processFile_success_inv env cy hup files.flatten initState (by simp [initState, BATCH_SIZE])
  set st := processFile env cy initState files.flatten with hst
  have hjoin : st.flushes.flatten ++ st.batch = acceptedVectors env cy 0 files.flatten := by
    simpa [initState] using hj
  have hFall : ∀ b ∈ st.flushes, b.length = BATCH_SIZE := by
    intro b hbmem
    apply hFlen
    have : st.flushes = F := by simpa [initState] using hF
    rwa [this] at hbmem
  have hups : upsert_properties env cy files
      = (if st.batch.isEmpty then (st, false)
         else if env.upsertRaises st.upsertCalls then
           ({ st with flushes := st.flushes ++ [st.batch],
                      upsertCalls := st.upsertCalls + 1 }, true)
         else ({ st with batch := [], flushes := st.flushes ++ [st.batch],
                         upsertCalls := st.upsertCalls + 1 }, false)) := by
    simp only [upsert_properties, processFiles_eq_flatten env cy files, ← hst]
  by_cases hbe : st.batch.isEmpty
  · have hbnil : st.batch = [] := List.isEmpty_iff.mp hbe
    rw [hups, if_pos hbe]
    refine ⟨?_, ?_, ?_, ?_, rfl⟩
    · intro b hbmem
      exact hFall b ((List.dropLast_sublist st.flushes).subset hbmem)
    · intro b hbmem
      have := hFall b hbmem
      rw [this]
      refine ⟨by simp [BATCH_SIZE], le_refl _⟩
    · rw [← hjoin, hbnil, List.append_nil]
    · intro hacc
      apply flatten_nil_of_uniform (n := BATCH_SIZE) (by simp [BATCH_SIZE]) _ hFall
      rw [← hjoin, hbnil, List.append_nil] at hacc
      exact hacc
  · have hbne : st.batch ≠ [] := fun hnil => hbe (by rw [hnil]; rfl)
    rw [hups, if_neg hbe, if_neg (by rw [hup st.upsertCalls]; exact Bool.false_ne_true)]
    refine ⟨?_, ?_, ?_, ?_, rfl⟩
    · intro b hbmem
      rw [List.dropLast_concat] at hbmem
      exact hFall b hbmem
    · intro b hbmem
      rcases List.mem_append.mp hbmem with hbmem | hbmem
      · have := hFall b hbmem
        rw [this]
        exact ⟨by simp [BATCH_SIZE], le_refl _⟩
      · have hbeq : b = st.batch := by simpa using hbmem
        rw [hbeq]
        constructor
        · exact Nat.one_le_iff_ne_zero.mpr (by
            intro h0
            exact hbne (List.length_eq_zero.mp h0))
        · exact Nat.le_of_lt hb
    · rw [List.flatten_append, ← hjoin]
      simp
    · intro hacc
      exfalso
      rw [← hjoin, List.append_eq_nil] at hacc
      exact hbne hacc.2

/-- Witness for claim C3's amended theorem: a two-file run with three
accepted records and a fully successful store satisfies the whole batching
invariant. -/
theorem batching_invariant_success_witness :
    (∀ b ∈ (upsert_properties envOK 2025 [[doc0], [doc0, doc0]]).1.flushes.dropLast,
        b.length = BATCH_SIZE)
    ∧ (∀ b ∈ (upsert_properties envOK 2025 [[doc0], [doc0, doc0]]).1.flushes,
        1 ≤ b.length ∧ b.length ≤ BATCH_SIZE)
    ∧ (upsert_properties envOK 2025 [[doc0], [doc0, doc0]]).1.flushes.flatten
        = acceptedVectors envOK 2025 0 [[doc0], [doc0, doc0]].flatten
    ∧ (acceptedVectors envOK 2025 0 [[doc0], [doc0, doc0]].flatten = [] →
        (upsert_properties envOK 2025 [[doc0], [doc0, doc0]]).1.flushes = [])
    ∧ (upsert_properties envOK 2025 [[doc0], [doc0, doc0]]).2 = false :=
  batching_invariant_success envOK 2025 [[doc0], [doc0, doc0]] (fun _ => rfl)

set_option maxRecDepth 1000000 in
/-- Claim C9: a run of 101 accepted records with a fully successful store
produces exactly two mid-run flushes of 50 each, leaves exactly one vector
pending at the end of the file loop, and the final flush has size 1. -/
theorem accumulator_101_records :
    ((processFiles envOK 2025 [List.replicate 101 doc0]).flushes.map List.length
        = [50, 50])
    ∧ (processFiles envOK 2025 [List.replicate 101 doc0]).batch.length = 1
    ∧ ((upsert_properties envOK 2025 [List.replicate 101 doc0]).1.flushes.map List.length
        = [50, 50, 1]) := by
  exact ⟨by decide, by decide, by decide⟩

theorem pyFloatRepr_natCast (n : ℕ) : pyFloatRepr ((n : ℚ)) = Nat.repr n ++ ".0" := by
  rw [pyFloatRepr, if_neg (not_lt.mpr (by positivity))]
  rw [pyFloatReprNN]
  simp only [Rat.num_natCast, Rat.den_natCast, Int.toNat_natCast, Nat.div_one, Nat.mod_one,
    if_pos]

/-- Claim C10: for every accepted record whose raw zpid is the integer n,
the Vector id is the Python string form of the float coercion of zpid —
the decimal text of n followed by ".0" — never the original integer text;
and that vector is exactly what the record contributes to the flushed-or-
pending content of the run. -/
theorem vector_id_float_string (env : Env) (cy : ℤ) (st : RunState) (doc : RawDoc)
    (c : Val) (emb : List ℚ) (n : ℕ)
    (hc : clean_document cy doc = Except.ok c)
    (hz : pyGet doc "zpid" = Val.vnum (n : ℚ))
    (hr : rejectCond c = false)
    (he : env.embed st.embedCalls = some emb)
    (hup : env.upsertRaises st.upsertCalls = false) :
    (mkVector c emb).id = Nat.repr n ++ ".0"
    ∧ (mkVector c emb).id ≠ Nat.repr n
    ∧ (processDoc env cy st doc).flushes.flatten ++ (processDoc env cy st doc).batch
        = st.flushes.flatten ++ st.batch ++ [mkVector c emb] := by
  obtain ⟨hcv, _⟩ := clean_ok_inv hc
  have hid : (mkVector c emb).id = Nat.repr n ++ ".0" := by
    show pyStr (vidx c "zpid") = _
    rw [hcv,
      show vidx (Val.vdict (cleanFields cy doc)) "zpid"
        = Val.vnum (safe_num (pyGet doc "zpid") 0 none none) from rfl,
      hz, safe_num_unbounded (show toFloat (Val.vnum (n : ℚ)) = some ((n : ℕ) : ℚ) from rfl) 0]
    exact pyFloatRepr_natCast n
  refine ⟨hid, ?_, ?_⟩
  · rw [hid]
    intro heq
    have hlen : (Nat.repr n).length + 2 = (Nat.repr n).length := by
      have := congrArg String.length heq
      rwa [String.length_append, show (".0" : String).length = 2 from rfl] at this
    omega
  · subst hcv
    by_cases hfull : BATCH_SIZE ≤ st.batch.length + 1
    · have hpd : processDoc env cy st doc =
          { batch := (st.batch ++ [mkVector (Val.vdict (cleanFields cy doc)) emb]).drop
              BATCH_SIZE,
            embedCalls := st.embedCalls + 1,
            upsertCalls := st.upsertCalls + 1,
            flushes := st.flushes
              ++ [(st.batch ++ [mkVector (Val.vdict (cleanFields cy doc)) emb]).take
                    BATCH_SIZE] } := by
        simp [processDoc, hc, hr, he, hfull, hup]
      rw [hpd]
      simp only [List.flatten_append, List.flatten_cons, List.flatten_nil,
        List.append_nil, List.append_assoc]
      rw [List.take_append_drop]
    · have hpd : processDoc env cy st doc =
          { st with batch := st.batch ++ [mkVector (Val.vdict (cleanFields cy doc)) emb],
                    embedCalls := st.embedCalls + 1 } := by
        simp [processDoc, hc, hr, he, hfull]
      rw [hpd]
      simp [List.append_assoc]

set_option maxRecDepth 1000000 in
/-- Witness for claim C10's theorem: an accepted record with integer zpid
12345 produces the vector id "12345.0", not "12345". -/
theorem vector_id_float_string_witness :
    (mkVector (Val.vdict (cleanFields 2025 doc12345)) [1]).id = Nat.repr 12345 ++ ".0"
    ∧ (mkVector (Val.vdict (cleanFields 2025 doc12345)) [1]).id ≠ Nat.repr 12345
    ∧ (processDoc envOK 2025 initState doc12345).flushes.flatten
        ++ (processDoc envOK 2025 initState doc12345).batch
        = initState.flushes.flatten ++ initState.batch
          ++ [mkVector (Val.vdict (cleanFields 2025 doc12345)) [1]] :=
  vector_id_float_string envOK 2025 initState doc12345
    (Val.vdict (cleanFields 2025 doc12345)) [1] 12345 rfl rfl (by decide) rfl rfl

end Estate
